import Mathlib

/-!
# Verification of the smpp_gateway repository

A shallow embedding of the queue processor, SMPP client helpers, delivery
receipt handling, priority normalization and the notification send loop of
the `smpp_gateway` Frappe app, together with theorems settling the frozen
claims about its specification.

Conventions of the embedding:
* Python strings are Lean `String`s; character level helpers reproduce the
  CPython behaviour of `str.split`, `str.title`, `str.strip` and `int()`
  restricted to ASCII input.
* Python dicts that are built by insertion are association lists with
  in-place overwrite (`assocSet`) and `dict.get` is `assocGet`.
* Database writes performed through `frappe.db.set_value` are reified as
  `DbWrite` values recording the target doctype, document name and the
  written fields.
* Timestamps are natural numbers; `add_to_date(now, seconds=k)` is `now + k`.
-/

namespace SmppGateway

/-- Python `text.split(sep)` for a one character separator: splits at every
occurrence, keeping empty fragments between consecutive separators.
Auxiliary worker carrying the current fragment in reverse. -/
def splitCharAux (c : Char) (acc : List Char) : List Char → List (List Char)
  | [] => [acc.reverse]
  | x :: xs =>
    if x = c then acc.reverse :: splitCharAux c [] xs
    else splitCharAux c (x :: acc) xs

/-- Python `text.split(sep)` for a one character separator. -/
def splitChar (c : Char) (l : List Char) : List (List Char) :=
  splitCharAux c [] l

/-- Python `part.split(sep, 1)` for a one character separator: `none` when
the separator does not occur, otherwise the pieces before and after its
first occurrence. -/
def splitFirst (c : Char) : List Char → Option (List Char × List Char)
  | [] => none
  | x :: xs =>
    if x = c then some ([], xs)
    else (splitFirst c xs).map (fun p => (x :: p.1, p.2))

/-- Python dict assignment `m[k] = v`: overwrite in place when the key is
present, append otherwise (insertion order preserved). -/
def assocSet (m : List (String × String)) (k v : String) : List (String × String) :=
  match m with
  | [] => [(k, v)]
  | (k0, v0) :: rest => if k0 = k then (k0, v) :: rest else (k0, v0) :: assocSet rest k v

/-- Python `m.get(k)` on an association list. -/
def assocGet (m : List (String × String)) (k : String) : Option String :=
  (m.find? (fun p => p.1 == k)).map (fun p => p.2)

/-- `SMPPClient._parse_delivery_receipt`: split the receipt text on spaces;
every token containing a colon contributes a key/value pair split at the
first colon; tokens without a colon are skipped. -/
def parseDeliveryReceipt (text : String) : List (String × String) :=
  (splitChar ' ' text.data).foldl
    (fun m part =>
      match splitFirst ':' part with
      | none => m
      | some kv => assocSet m (String.mk kv.1) (String.mk kv.2))
    []

/-- `SMPPClient._map_receipt_status`: the dict lookup
`status_map.get(smpp_status, 'Failed')`, with `none` standing for a missing
`stat` key (Python `None`). -/
def mapReceiptStatus (stat : Option String) : String :=
  match stat with
  | none => "Failed"
  | some s =>
    if s = "DELIVRD" then "Delivered"
    else if s = "EXPIRED" then "Expired"
    else if s = "DELETED" then "Failed"
    else if s = "UNDELIV" then "Failed"
    else if s = "ACCEPTD" then "Delivered"
    else if s = "UNKNOWN" then "Failed"
    else if s = "REJECTD" then "Rejected"
    else "Failed"

/-- The persistent fields of an `SMPP SMS Message` document touched by the
embedded operations. -/
structure SmsMessage where
  name : String
  message_id : Option String
  status : String
  smpp_status : Option String
  delivered_time : Option String
  sent_time : Option Nat
  error_code : Option String
  error_message : Option String
  retry_count : Nat
  deriving Repr, DecidableEq

/-- The persistent fields of an `SMPP Delivery Receipt` document used by
receipt processing. -/
structure DeliveryReceipt where
  original_message : String
  receipted_message_id : String
  final_status : String
  raw_receipt_data : String
  deriving Repr, DecidableEq

/-- The slice of the store that delivery receipt processing reads and
writes: the message table and the receipt table. -/
structure GatewayState where
  messages : List SmsMessage
  receipts : List DeliveryReceipt
  deriving Repr, DecidableEq

/-- `frappe.db.get_value("SMPP SMS Message", {"message_id": mid}, "name")`:
the first message whose `message_id` equals `mid`. -/
def findMessageBySmscId (msgs : List SmsMessage) (mid : String) : Option SmsMessage :=
  msgs.find? (fun m => m.message_id == some mid)

/-- Modelled from the spec: the `SMPP Delivery Receipt` doctype schema
(its JSON definition is not part of the reviewed sources) enforces receipt
table uniqueness, matched by SMSC message id plus raw payload, so inserting
a duplicate receipt raises and the surrounding handler swallows the
exception. This predicate decides whether a receipt with the given SMSC
message id and raw payload is already recorded. -/
def receiptExists (rs : List DeliveryReceipt) (mid raw : String) : Bool :=
  rs.any (fun r => r.receipted_message_id == mid && r.raw_receipt_data == raw)

/-- `SMPPClient._process_delivery_receipt`: parse the raw receipt text;
when it yields a truthy `id`, look the original message up by SMSC message
id; insert a receipt record (a duplicate insert raises, see
`receiptExists`, and the handler catches the exception leaving the state
unchanged); finally overwrite the message's `smpp_status`, `status` and
`delivered_time` from the parsed receipt. -/
def processDeliveryReceipt (raw : String) (st : GatewayState) : GatewayState :=
  let info := parseDeliveryReceipt raw
  match assocGet info "id" with
  | none => st
  | some mid =>
    if mid = "" then st
    else
      match findMessageBySmscId st.messages mid with
      | none => st
      | some m =>
        if receiptExists st.receipts mid raw then st
        else
          let stat := assocGet info "stat"
          let newStatus := mapReceiptStatus stat
          let rec0 : DeliveryReceipt :=
            { original_message := m.name
              receipted_message_id := mid
              final_status := stat.getD "UNKNOWN"
              raw_receipt_data := raw }
          { messages :=
              st.messages.map (fun mm =>
                if mm.name == m.name then
                  { mm with
                    smpp_status := stat
                    status := newStatus
                    delivered_time :=
                      if newStatus == "Delivered" then assocGet info "done_date" else none }
                else mm)
            receipts := st.receipts ++ [rec0] }

/-- The fields of an `SMPP SMS Queue` document used by the queue
processor: the columns fetched by `process_sms_queue` plus the columns it
may write back. -/
structure QueueEntry where
  name : String
  sms_message : String
  priority : Nat
  attempts : Nat
  max_attempts : Nat
  retry_interval : Nat
  scheduled_for : Nat
  creation : Nat
  status : String
  last_attempt : Nat
  processing_notes : String
  error_log : String
  deriving Repr, DecidableEq

/-- Numeric prefix accumulator for MariaDB string-to-number coercion. -/
def mysqlLeadingDigits (acc : Nat) : List Char → Nat
  | [] => acc
  | c :: cs => if c.isDigit then mysqlLeadingDigits (acc * 10 + (c.toNat - 48)) cs else acc

/-- MariaDB coercion of a string literal compared against an integer
column: the longest leading numeric value (optional sign, then digits),
and 0 when the string has no numeric prefix — so the literal
`"max_attempts"` coerces to 0. -/
def mysqlIntCoerce (s : String) : Int :=
  match s.data with
  | [] => 0
  | '-' :: c :: cs =>
    if c.isDigit then -(Int.ofNat (mysqlLeadingDigits (c.toNat - 48) cs)) else 0
  | '+' :: c :: cs =>
    if c.isDigit then Int.ofNat (mysqlLeadingDigits (c.toNat - 48) cs) else 0
  | c :: cs =>
    if c.isDigit then Int.ofNat (mysqlLeadingDigits (c.toNat - 48) cs) else 0

/-- The selection filter of `process_sms_queue`: status `Pending` or
`Retrying`, `scheduled_for <= now`, and the filter tuple
`"attempts": ["<", "max_attempts"]`. Frappe passes the right-hand side of
a filter as a literal value, never as a column reference, so the integer
`attempts` column is compared against the string literal
`"max_attempts"`, which MariaDB coerces to its numeric prefix, 0 — the
comparison is `attempts < 0`. -/
def isDue (now : Nat) (e : QueueEntry) : Bool :=
  (e.status == "Pending" || e.status == "Retrying")
    && decide (e.scheduled_for ≤ now)
    && decide ((e.attempts : Int) < mysqlIntCoerce "max_attempts")

/-- The `order_by="priority asc, creation asc"` comparison of
`process_sms_queue`. -/
def keyLe (a b : QueueEntry) : Prop :=
  a.priority < b.priority ∨ (a.priority = b.priority ∧ a.creation ≤ b.creation)

instance : DecidableRel keyLe := fun a b =>
  inferInstanceAs
    (Decidable (a.priority < b.priority ∨ (a.priority = b.priority ∧ a.creation ≤ b.creation)))

instance : IsTotal QueueEntry keyLe := by
  constructor
  intro a b
  unfold keyLe
  omega

instance : IsTrans QueueEntry keyLe := by
  constructor
  intro a b c hab hbc
  unfold keyLe at hab hbc ⊢
  omega

/-- The batch a single tick of `process_sms_queue` iterates over, in
iteration order: the due entries sorted by priority then creation, limited
to 100 rows. -/
def processOrderList (entries : List QueueEntry) (now : Nat) : List QueueEntry :=
  ((entries.filter (isDue now)).insertionSort keyLe).take 100

/-- A field value written through `frappe.db.set_value`. -/
inductive FieldValue where
  | str (v : String)
  | num (v : Nat)
  | null
  deriving Repr, DecidableEq

/-- One `frappe.db.set_value(doctype, docname, fields)` call. -/
structure DbWrite where
  doctype : String
  docname : String
  fields : List (String × FieldValue)
  deriving Repr, DecidableEq

/-- `_update_queue_status`: sets `status` and `last_attempt` on the
`SMPP SMS Queue` document and, when notes are given, prepends a timestamped
line to the existing `processing_notes`. -/
def updateQueueStatusWrites (queueName : String) (status : String) (notes : Option String)
    (now : Nat) (existingNotes : String) : DbWrite :=
  { doctype := "SMPP SMS Queue"
    docname := queueName
    fields :=
      [("status", FieldValue.str status), ("last_attempt", FieldValue.num now)] ++
        match notes with
        | none => []
        | some n =>
          [("processing_notes",
            FieldValue.str (toString now ++ ": " ++ n ++ "\n" ++ existingNotes))] }

/-- `_handle_queue_failure`: computes `attempts + 1`; at or beyond
`max_attempts` it marks the entry `Failed` through `_update_queue_status`,
otherwise it issues a `frappe.db.set_value` against doctype `"SMS Queue"`
setting `status`, `attempts`, `last_attempt`, `next_retry` and a prepended
`error_log`. Returns the boolean result together with the writes issued. -/
def handleQueueFailure (item : QueueEntry) (errorMessage : String) (now : Nat)
    (existingNotes existingErrorLog : String) : Bool × List DbWrite :=
  let attempts := item.attempts + 1
  if item.max_attempts ≤ attempts then
    (false,
      [updateQueueStatusWrites item.name "Failed"
        (some ("Max attempts reached. Last error: " ++ errorMessage)) now existingNotes])
  else
    (false,
      [{ doctype := "SMS Queue"
         docname := item.name
         fields :=
           [("status", FieldValue.str "Retrying"),
            ("attempts", FieldValue.num attempts),
            ("last_attempt", FieldValue.num now),
            ("next_retry", FieldValue.num (now + item.retry_interval)),
            ("error_log",
             FieldValue.str ("Attempt " ++ toString attempts ++ ": " ++ errorMessage
               ++ "\n" ++ existingErrorLog))] }])

/-- Apply one reified `frappe.db.set_value` to an `SMPP SMS Queue`
document: only a write addressed to doctype `"SMPP SMS Queue"` and this
document's name touches it; recognized columns are updated in order. -/
def applyWriteToEntry (e : QueueEntry) (w : DbWrite) : QueueEntry :=
  if w.doctype == "SMPP SMS Queue" && w.docname == e.name then
    w.fields.foldl
      (fun e0 f =>
        match f with
        | ("status", FieldValue.str s) => { e0 with status := s }
        | ("attempts", FieldValue.num n) => { e0 with attempts := n }
        | ("last_attempt", FieldValue.num n) => { e0 with last_attempt := n }
        | ("scheduled_for", FieldValue.num n) => { e0 with scheduled_for := n }
        | ("processing_notes", FieldValue.str s) => { e0 with processing_notes := s }
        | ("error_log", FieldValue.str s) => { e0 with error_log := s }
        | _ => e0)
      e
  else e

/-- Outcome of `client.send_sms` for one attempt: the SMSC accepted the
submission and returned a message id, or sending raised and
`_handle_send_error` ran with the given error code and message. -/
inductive SendOutcome where
  | ok (messageId : String)
  | err (code : String) (msg : String)
  deriving Repr, DecidableEq

/-- `SMPPClient.send_sms` success path: record the SMSC message id, mark
the message `Sent`, stamp `sent_time` and clear the error columns. -/
def sendSmsSuccess (msg : SmsMessage) (messageId : String) (now : Nat) : SmsMessage :=
  { msg with
    message_id := some messageId
    status := "Sent"
    sent_time := some now
    error_code := none
    error_message := none }

/-- `SMPPClient._handle_send_error`: mark the message `Failed`, record the
error and bump `retry_count`. -/
def handleSendError (msg : SmsMessage) (code errMsg : String) : SmsMessage :=
  { msg with
    status := "Failed"
    error_code := some code
    error_message := some errMsg
    retry_count := msg.retry_count + 1 }

/-- Result of `_process_queue_item` on one entry: the message and entry
after all writes are applied, the number of `submit_sm` submissions
performed, and the returned boolean. -/
structure ProcessResult where
  message : SmsMessage
  entry : QueueEntry
  submissions : Nat
  returned : Bool
  deriving Repr, DecidableEq

/-- `_process_queue_item`: skip (marking the entry `Completed`) when the
message is already `Sent` or `Delivered`; otherwise mark the entry
`Processing`, submit once, and on success mark it `Completed` while on
failure run `_handle_send_error` on the message and `_handle_queue_failure`
on the entry. -/
def processQueueItem (msg : SmsMessage) (e : QueueEntry) (outcome : SendOutcome)
    (now : Nat) : ProcessResult :=
  if msg.status == "Sent" || msg.status == "Delivered" then
    { message := msg
      entry := applyWriteToEntry e
        (updateQueueStatusWrites e.name "Completed" (some "Message already sent") now
          e.processing_notes)
      submissions := 0
      returned := true }
  else
    let e1 := applyWriteToEntry e
      (updateQueueStatusWrites e.name "Processing"
        (some ("Attempt " ++ toString (e.attempts + 1))) now e.processing_notes)
    match outcome with
    | SendOutcome.ok mid =>
      { message := sendSmsSuccess msg mid now
        entry := applyWriteToEntry e1
          (updateQueueStatusWrites e1.name "Completed" (some "SMS sent successfully") now
            e1.processing_notes)
        submissions := 1
        returned := true }
    | SendOutcome.err code errMsg =>
      let failure := handleQueueFailure e1 errMsg now e1.processing_notes e1.error_log
      { message := handleSendError msg code errMsg
        entry := failure.2.foldl applyWriteToEntry e1
        submissions := 1
        returned := failure.1 }

/-- `SMPPSMSMessage.query_delivery_status` reconciliation: the dict lookup
`status_mapping.get(message_state_text, self.status)` applied to the
current status. -/
def mapQueryStatus (stateText current : String) : String :=
  if stateText = "ENROUTE" then "Sent"
  else if stateText = "DELIVERED" then "Delivered"
  else if stateText = "EXPIRED" then "Expired"
  else if stateText = "DELETED" then "Failed"
  else if stateText = "UNDELIVERABLE" then "Failed"
  else if stateText = "ACCEPTED" then "Delivered"
  else if stateText = "UNKNOWN" then "Failed"
  else if stateText = "REJECTED" then "Rejected"
  else current

/-- The operations of the code base that overwrite a message's `status`
column: the submission success path, the send error path, delivery receipt
application (`stat` as parsed, `none` when absent) and `query_sm`
reconciliation. -/
inductive StatusOp where
  | sendSuccess
  | sendError
  | receiptApply (stat : Option String)
  | queryApply (stateText : String)
  deriving Repr, DecidableEq

/-- The new `status` each operation writes, as a function of the current
status: submission success always writes `Sent`, the send error path
always writes `Failed`, receipt application writes the mapped receipt
status ignoring the current one, and query reconciliation writes the
mapped query state defaulting to the current status. -/
def applyStatusOp (op : StatusOp) (current : String) : String :=
  match op with
  | StatusOp.sendSuccess => "Sent"
  | StatusOp.sendError => "Failed"
  | StatusOp.receiptApply stat => mapReceiptStatus stat
  | StatusOp.queryApply t => mapQueryStatus t current

/-- The message lifecycle statuses of the spec chain. -/
def validStatus (s : String) : Prop :=
  s = "Draft" ∨ s = "Queued" ∨ s = "Sent" ∨ s = "Delivered" ∨ s = "Expired"
    ∨ s = "Failed" ∨ s = "Rejected"

/-- Position of a status along the chain
`Draft → Queued → Sent → {Delivered, Expired, Failed, Rejected}`. -/
def statusRank (s : String) : Nat :=
  if s = "Draft" then 0
  else if s = "Queued" then 1
  else if s = "Sent" then 2
  else 3

/-- State of the module level `_connection_pool` of `smpp_client.py`
together with the clients created so far: the pool maps a pool key to a
client id, `clients` maps each client id to the configuration name its
`SMPPClient._get_config` resolved, and `nextId` numbers fresh clients. -/
structure PoolState where
  pool : List (String × Nat)
  clients : List (Nat × String)
  nextId : Nat
  deriving Repr, DecidableEq

/-- `get_smpp_client(config_name)`: key the pool by the given name or the
literal `"default"`; reuse the cached client for that key, otherwise
construct an `SMPPClient` whose `_get_config` resolves `None` to the
configuration flagged `is_default` (here `defaultConfig`). Returns the
client id and the new pool state. -/
def get_smpp_client (defaultConfig : String) (configName : Option String)
    (st : PoolState) : Nat × PoolState :=
  let key := configName.getD "default"
  match st.pool.find? (fun p => p.1 == key) with
  | some p => (p.2, st)
  | none =>
    let cid := st.nextId
    let resolved := configName.getD defaultConfig
    (cid,
      { pool := st.pool ++ [(key, cid)]
        clients := st.clients ++ [(cid, resolved)]
        nextId := cid + 1 })

/-- The configuration identity an existing pooled client is bound to. -/
def clientConfig (st : PoolState) (cid : Nat) : Option String :=
  (st.clients.find? (fun p => p.1 == cid)).map (fun p => p.2)

/-- ASCII fragment of Python `str.title()`: the first alphabetic character
of every run of alphabetic characters is uppercased, the rest lowercased;
other characters are kept and reset the run. Worker carrying whether the
previous character was cased. -/
def pyTitleAux (prevCased : Bool) : List Char → List Char
  | [] => []
  | c :: cs =>
    if c.isAlpha then
      (if prevCased then c.toLower else c.toUpper) :: pyTitleAux true cs
    else c :: pyTitleAux false cs

/-- ASCII fragment of Python `str.title()`. -/
def pyTitle (s : String) : String :=
  String.mk (pyTitleAux false s.data)

/-- The whitespace characters Python `str.strip()` removes (ASCII). -/
def isPyWhitespace (c : Char) : Bool :=
  c = ' ' || c = '\t' || c = '\n' || c = '\r' || c = '\x0b' || c = '\x0c'

/-- Python `str.strip()` restricted to ASCII whitespace. -/
def pyStrip (s : String) : String :=
  String.mk (((s.data.dropWhile isPyWhitespace).reverse.dropWhile isPyWhitespace).reverse)

/-- Digit tail of a Python integer literal: digits with single underscores
allowed between digits, accumulating the value. -/
def pyIntDigits (acc : Nat) : List Char → Option Nat
  | [] => some acc
  | '_' :: c :: cs =>
    if c.isDigit then pyIntDigits (acc * 10 + (c.toNat - 48)) cs else none
  | c :: cs =>
    if c.isDigit then pyIntDigits (acc * 10 + (c.toNat - 48)) cs else none

/-- Python `int(s)` on an ASCII decimal string: surrounding whitespace is
stripped, an optional sign precedes digits with optional single
underscores between them; `none` when the call would raise `ValueError`. -/
def pyInt (s : String) : Option Int :=
  match (pyStrip s).data with
  | [] => none
  | '+' :: rest =>
    match rest with
    | [] => none
    | c :: cs => if c.isDigit then (pyIntDigits (c.toNat - 48) cs).map Int.ofNat else none
  | '-' :: rest =>
    match rest with
    | [] => none
    | c :: cs =>
      if c.isDigit then (pyIntDigits (c.toNat - 48) cs).map (fun n => -(n : Int)) else none
  | c :: cs => if c.isDigit then (pyIntDigits (c.toNat - 48) cs).map Int.ofNat else none

/-- The `PRIORITY_MAP` dict of `sms_api.py`. -/
def PRIORITY_MAP : List (String × Int) :=
  [("Low", 0), ("Normal", 0), ("Medium", 1), ("High", 2), ("Urgent", 3), ("Very High", 3),
   ("0", 0), ("1", 1), ("2", 2), ("3", 3)]

/-- Lookup in `PRIORITY_MAP`. -/
def priorityMapGet (k : String) : Option Int :=
  (PRIORITY_MAP.find? (fun p => p.1 == k)).map (fun p => p.2)

/-- The dynamically typed `priority` argument of `normalize_priority`:
`None`, an `int`, or a `str`. -/
inductive PyVal where
  | pynone
  | pyint (n : Int)
  | pystr (s : String)
  deriving Repr, DecidableEq

/-- `normalize_priority`: `None` yields 0; an int is clamped to `0..3`;
a string is stripped and title-cased and looked up in `PRIORITY_MAP`,
falling back to `int(...)` of the original string clamped to `0..3`, and
finally to 0 when that parse fails. -/
def normalize_priority : PyVal → Int
  | PyVal.pynone => 0
  | PyVal.pyint n => max 0 (min 3 n)
  | PyVal.pystr s =>
    match priorityMapGet (pyTitle (pyStrip s)) with
    | some v => v
    | none =>
      match pyInt s with
      | some n => max 0 (min 3 n)
      | none => 0

/-- `clean_phone_number` of `sms_api.py`: empty input is rejected, all
characters other than (ASCII) digits and `+` are removed, and the result
must keep at least 7 digits. -/
def clean_phone_number (phone : String) : Option String :=
  if phone = "" then none
  else
    let cleaned := phone.data.filter (fun c => c.isDigit || c = '+')
    if (cleaned.filter (fun c => c.isDigit)).length < 7 then none
    else some (String.mk cleaned)

/-- Environment outcome for one recipient of `send_notification_sms`:
creating the `SMPP SMS Message` document raised, or `client.send_sms`
returned (successfully or not) after which `sms_doc.reload()` may raise. -/
inductive SendAttemptOutcome where
  | insertRaises
  | sendResult (ok : Bool) (reloadRaises : Bool)
  deriving Repr, DecidableEq

/-- One iteration of the recipient loop of `send_notification_sms`, as the
pair of its appends to `success_list` and `failed_list`: an invalid phone
number appends the cleaned value `None` to `failed_list`; a raising
insert appends the cleaned number to `failed_list`; otherwise the send
result appends to one of the lists, and a raising `reload()` afterwards
appends the number to `failed_list` once more. -/
def recipientStep (outcome : SendAttemptOutcome) (r : String) :
    List String × List (Option String) :=
  match clean_phone_number r with
  | none => ([], [none])
  | some p =>
    match outcome with
    | SendAttemptOutcome.insertRaises => ([], [some p])
    | SendAttemptOutcome.sendResult ok reload =>
      let base : List String × List (Option String) :=
        if ok then ([p], []) else ([], [some p])
      if reload then (base.1, base.2 ++ [some p]) else base

/-- The lists built by the recipient loop of `send_notification_sms` over
the whole recipient list (the loop never aborts early; iteration `i` uses
the environment outcome `env i`). -/
structure NotifyResult where
  success_list : List String
  failed_list : List (Option String)
  deriving Repr, DecidableEq

/-- `send_notification_sms` recipient loop: concatenate the appends of the
individual iterations in order. -/
def send_notification_sms (env : Nat → SendAttemptOutcome) (rs : List String) :
    NotifyResult :=
  { success_list :=
      (rs.enum.map (fun ir => (recipientStep (env ir.1) ir.2).1)).flatten
    failed_list :=
      (rs.enum.map (fun ir => (recipientStep (env ir.1) ir.2).2)).flatten }

/-- `sent_count` of the returned dict. -/
def sentCount (env : Nat → SendAttemptOutcome) (rs : List String) : Nat :=
  (send_notification_sms env rs).success_list.length

/-- `failed_count` of the returned dict. -/
def failedCount (env : Nat → SendAttemptOutcome) (rs : List String) : Nat :=
  (send_notification_sms env rs).failed_list.length

/-- The `success` flag of the returned dict: `len(success_list) > 0`. -/
def successFlag (env : Nat → SendAttemptOutcome) (rs : List String) : Bool :=
  decide (0 < sentCount env rs)

/-- The receipt keys the spec calls recognized, written from the spec's
words for comparison with the parser's actual output. -/
def specRecognizedKeys : List String :=
  ["id", "sub", "dlvrd", "submit date", "done date", "stat", "err"]

/-- The sample receipt text of the spec's testable properties. -/
def sampleReceiptText : String :=
  "id:abc123 sub:001 dlvrd:001 stat:DELIVRD err:000"

/-- A sent message awaiting its delivery receipt, with SMSC message id
`abc123`. -/
def exSentMessage : SmsMessage :=
  { name := "SMS-0001"
    message_id := some "abc123"
    status := "Sent"
    smpp_status := none
    delivered_time := none
    sent_time := some 10
    error_code := none
    error_message := none
    retry_count := 0 }

/-- A pending queue entry fixture with the given name, priority and
creation time, due at time 50. -/
def exEntry (nm : String) (prio creation : Nat) : QueueEntry :=
  { name := nm
    sms_message := "SMS-" ++ nm
    priority := prio
    attempts := 0
    max_attempts := 3
    retry_interval := 300
    scheduled_for := 50
    creation := creation
    status := "Pending"
    last_attempt := 0
    processing_notes := ""
    error_log := "" }

/-- A receipt row for the sample receipt, as recorded by a first
processing of it. -/
def exRecordedReceipt : DeliveryReceipt :=
  { original_message := "SMS-0001"
    receipted_message_id := "abc123"
    final_status := "DELIVRD"
    raw_receipt_data := sampleReceiptText }

/-- Queue entry fixture for the retry path: no attempt yet, three allowed. -/
def exFailFresh : QueueEntry :=
  { exEntry "Q-0001" 0 1 with attempts := 0 }

/-- Queue entry fixture for the terminal path: two recorded attempts out of
three allowed, so the next failure is the third consecutive one. -/
def exFailLast : QueueEntry :=
  { exEntry "Q-0001" 0 1 with attempts := 2 }

/-- Environment in which every send succeeds but the subsequent
`sms_doc.reload()` raises. -/
def envReloadRaises : Nat → SendAttemptOutcome :=
  fun _ => SendAttemptOutcome.sendResult true true

/-- Environment in which every send succeeds and nothing raises. -/
def envAllOk : Nat → SendAttemptOutcome :=
  fun _ => SendAttemptOutcome.sendResult true false

/-- First pool access: implicit default configuration, starting from an
empty pool; the default configuration is named `CFG-A`. -/
def poolRun1 : Nat × PoolState :=
  get_smpp_client "CFG-A" none { pool := [], clients := [], nextId := 0 }

/-- Second pool access: the same configuration requested explicitly by its
name `CFG-A`. -/
def poolRun2 : Nat × PoolState :=
  get_smpp_client "CFG-A" (some "CFG-A") poolRun1.2

/-- C4: the receipt-status-to-message-status mapping sends `DELIVRD` and
`ACCEPTD` to `Delivered`, `EXPIRED` to `Expired`, `DELETED`, `UNDELIV` and
`UNKNOWN` to `Failed`, `REJECTD` to `Rejected`, and every other input
(including a missing `stat`) to `Failed`; and processing the spec's sample
receipt with stat `DELIVRD` drives the referenced message to status
`Delivered`. -/
theorem claim_C4_receipt_status_mapping (s : String)
    (h : s ∉ ["DELIVRD", "ACCEPTD", "EXPIRED", "DELETED", "UNDELIV", "UNKNOWN", "REJECTD"]) :
    mapReceiptStatus (some "DELIVRD") = "Delivered"
      ∧ mapReceiptStatus (some "ACCEPTD") = "Delivered"
      ∧ mapReceiptStatus (some "EXPIRED") = "Expired"
      ∧ mapReceiptStatus (some "DELETED") = "Failed"
      ∧ mapReceiptStatus (some "UNDELIV") = "Failed"
      ∧ mapReceiptStatus (some "UNKNOWN") = "Failed"
      ∧ mapReceiptStatus (some "REJECTD") = "Rejected"
      ∧ mapReceiptStatus none = "Failed"
      ∧ mapReceiptStatus (some s) = "Failed"
      ∧ (processDeliveryReceipt sampleReceiptText
          { messages := [exSentMessage], receipts := [] }).messages.map SmsMessage.status
          = ["Delivered"] := by
  simp only [List.mem_cons, List.not_mem_nil, or_false, not_or] at h
  obtain ⟨h1, h2, h3, h4, h5, h6, h7⟩ := h
  refine ⟨rfl, rfl, rfl, rfl, rfl, rfl, rfl, rfl, ?_, by decide⟩
  simp [mapReceiptStatus, h1, h2, h3, h4, h5, h6, h7]

/-- C4 witness: the mapping evaluated at the listed inputs and at the
unrecognized state `ONHOLD`. -/
theorem claim_C4_witness :
    mapReceiptStatus (some "ONHOLD") = "Failed"
      ∧ (processDeliveryReceipt sampleReceiptText
          { messages := [exSentMessage], receipts := [] }).messages.map SmsMessage.status
          = ["Delivered"] :=
  ⟨(claim_C4_receipt_status_mapping "ONHOLD" (by decide)).2.2.2.2.2.2.2.2.1,
   (claim_C4_receipt_status_mapping "ONHOLD" (by decide)).2.2.2.2.2.2.2.2.2⟩

theorem splitCharAux_chars (c : Char) :
    ∀ (l acc t : List Char), t ∈ splitCharAux c acc l → ∀ x ∈ t, x ∈ acc ∨ x ∈ l := by
  intro l
  induction l with
  | nil =>
    intro acc t ht x hx
    simp only [splitCharAux, List.mem_singleton] at ht
    subst ht
    exact Or.inl (List.mem_reverse.1 hx)
  | cons a as ih =>
    intro acc t ht x hx
    by_cases hac : a = c
    · rw [splitCharAux, if_pos hac] at ht
      rcases List.mem_cons.1 ht with ht | ht
      · subst ht
        exact Or.inl (List.mem_reverse.1 hx)
      · rcases ih [] t ht x hx with h | h
        · exact absurd h (List.not_mem_nil x)
        · exact Or.inr (List.mem_cons_of_mem a h)
    · rw [splitCharAux, if_neg hac] at ht
      rcases ih (a :: acc) t ht x hx with h | h
      · rcases List.mem_cons.1 h with h | h
        · exact Or.inr (h ▸ List.mem_cons_self a as)
        · exact Or.inl h
      · exact Or.inr (List.mem_cons_of_mem a h)

theorem splitFirst_eq_none (c : Char) :
    ∀ l : List Char, (∀ x ∈ l, x ≠ c) → splitFirst c l = none := by
  intro l
  induction l with
  | nil => intro _; rfl
  | cons a as ih =>
    intro h
    rw [splitFirst, if_neg (h a (List.mem_cons_self a as)), ih (fun x hx => h x (List.mem_cons_of_mem a hx))]
    rfl

theorem parseDeliveryReceipt_eq_nil_of_no_colon (text : String)
    (h : ∀ x ∈ text.data, x ≠ ':') : parseDeliveryReceipt text = [] := by
  unfold parseDeliveryReceipt
  have hparts : ∀ part ∈ splitChar ' ' text.data, splitFirst ':' part = none := by
    intro part hp
    refine splitFirst_eq_none ':' part (fun x hx => ?_)
    rcases splitCharAux_chars ' ' text.data [] part hp x hx with hc | hc
    · exact absurd hc (List.not_mem_nil x)
    · exact h x hc
  generalize splitChar ' ' text.data = parts at hparts
  induction parts with
  | nil => rfl
  | cons p ps ih =>
    rw [List.foldl_cons, hparts p (List.mem_cons_self p ps)]
    exact ih (fun q hq => hparts q (List.mem_cons_of_mem p hq))

/-- C5 counterexample: the claim says the parser returns a mapping of the
recognized keys and ignores unrecognized tokens; on input `foo:bar` the
parser in fact returns the unrecognized key `foo`. -/
theorem claim_C5_counterexample :
    ("foo", "bar") ∈ parseDeliveryReceipt "foo:bar" ∧ "foo" ∉ specRecognizedKeys := by
  decide

/-- C5 (amended): the parser keeps every colon-delimited token as a
key/value pair, recognized or not, splitting at the first colon; input
whose characters contain no colon parses to the empty mapping without
raising, and processing such a receipt performs no mutation at all; the
concrete texts of the spec parse as stated. -/
theorem claim_C5_amended_parse_semantics (text : String) (h : ∀ x ∈ text.data, x ≠ ':') :
    parseDeliveryReceipt text = []
      ∧ parseDeliveryReceipt "garbage no colons" = []
      ∧ (∀ st : GatewayState, processDeliveryReceipt "garbage no colons" st = st)
      ∧ parseDeliveryReceipt "id:abc123 sub:001 dlvrd:001 stat:DELIVRD err:000"
          = [("id", "abc123"), ("sub", "001"), ("dlvrd", "001"), ("stat", "DELIVRD"),
             ("err", "000")] := by
  refine ⟨parseDeliveryReceipt_eq_nil_of_no_colon text h, by decide, ?_, by decide⟩
  intro st
  unfold processDeliveryReceipt
  rw [show parseDeliveryReceipt "garbage no colons" = [] from by decide]
  rfl

/-- C5 witness: the amended theorem applied to the colon-free garbage
input of the spec. -/
theorem claim_C5_witness :
    parseDeliveryReceipt "garbage no colons" = []
      ∧ ∀ st : GatewayState, processDeliveryReceipt "garbage no colons" st = st :=
  ⟨(claim_C5_amended_parse_semantics "garbage no colons" (by decide)).1,
   (claim_C5_amended_parse_semantics "garbage no colons" (by decide)).2.2.1⟩

/-- C6: a receipt that is already recorded — same SMSC message id and same
raw payload as an existing receipt row — triggers no further mutation when
processed again: the whole store, messages included, is left unchanged. -/
theorem claim_C6_receipt_applied_once (raw : String) (st : GatewayState)
    (r : DeliveryReceipt) (hr : r ∈ st.receipts)
    (hid : assocGet (parseDeliveryReceipt raw) "id" = some r.receipted_message_id)
    (hraw : r.raw_receipt_data = raw) :
    processDeliveryReceipt raw st = st := by
  have hex : receiptExists st.receipts r.receipted_message_id raw = true := by
    unfold receiptExists
    rw [List.any_eq_true]
    exact ⟨r, hr, by simp [hraw]⟩
  unfold processDeliveryReceipt
  simp only [hid]
  by_cases hmid : r.receipted_message_id = ""
  · simp [hmid]
  · rw [if_neg hmid]
    cases hfind : findMessageBySmscId st.messages r.receipted_message_id with
    | none => rfl
    | some m => simp only [hex, if_true]

/-- C6 witness: reprocessing the spec's sample receipt when an identical
receipt row is already recorded leaves the store unchanged. -/
theorem claim_C6_witness :
    processDeliveryReceipt sampleReceiptText
        { messages := [exSentMessage], receipts := [exRecordedReceipt] }
      = { messages := [exSentMessage], receipts := [exRecordedReceipt] } :=
  claim_C6_receipt_applied_once sampleReceiptText
    { messages := [exSentMessage], receipts := [exRecordedReceipt] }
    exRecordedReceipt (by decide) (by decide) (by decide)

/-- C2 (code bug evaluation): the filter tuple
`"attempts": ["<", "max_attempts"]` compares the `attempts` column against
the literal string `"max_attempts"`, which coerces to 0 for the integer
column, so the condition is `attempts < 0`: it holds of no entry, the
selection is empty on every tick — in particular for three entries with
priorities `[3, 0, 2]` that are `Pending`, due and far below their
`max_attempts` of 3 — and the tick never compares `attempts` to the
entry's `max_attempts` column at all. -/
theorem claim_C2_filter_empty :
    mysqlIntCoerce "max_attempts" = 0
      ∧ isDue 100 (exEntry "QB" 0 2) = false
      ∧ processOrderList [exEntry "QA" 3 1, exEntry "QB" 0 2, exEntry "QC" 2 3] 100 = []
      ∧ (∀ (entries : List QueueEntry) (now : Nat), ∀ e ∈ entries, isDue now e = false)
      ∧ (∀ (entries : List QueueEntry) (now : Nat), processOrderList entries now = []) := by
  have hdue : ∀ (now : Nat) (e : QueueEntry), isDue now e = false := by
    intro now e
    unfold isDue
    have h0 : ¬ ((e.attempts : Int) < mysqlIntCoerce "max_attempts") := by
      rw [show mysqlIntCoerce "max_attempts" = 0 from rfl]
      exact Int.not_lt.2 (Int.natCast_nonneg _)
    simp [h0]
  have hfilter : ∀ (entries : List QueueEntry) (now : Nat),
      entries.filter (isDue now) = [] := by
    intro entries now
    induction entries with
    | nil => rfl
    | cons a as ih => rw [List.filter_cons, hdue now a]; exact ih
  have hempty : ∀ (entries : List QueueEntry) (now : Nat),
      processOrderList entries now = [] := by
    intro entries now
    rw [processOrderList, hfilter]
    rfl
  exact ⟨rfl, hdue 100 _, hempty _ 100, fun entries now e _ => hdue now e, hempty⟩

/-- C1 (code bug evaluation): on a failing attempt that has not exhausted
`max_attempts`, `_handle_queue_failure` issues its whole retry update —
`Retrying` status, incremented attempts, and the `next_retry` schedule —
against doctype `"SMS Queue"` instead of `"SMPP SMS Queue"`, and writes a
`next_retry` field, never `scheduled_for`; on the third consecutive
failure with `max_attempts = 3` the entry is marked `Failed` on the real
doctype, but that write carries no `attempts` increment and no
`scheduled_for` update. -/
theorem claim_C1_failing_input_eval :
    (handleQueueFailure exFailFresh "connection refused" 1000 "" ""
        = (false,
           [{ doctype := "SMS Queue"
              docname := "Q-0001"
              fields := [("status", FieldValue.str "Retrying"),
                         ("attempts", FieldValue.num 1),
                         ("last_attempt", FieldValue.num 1000),
                         ("next_retry", FieldValue.num 1300),
                         ("error_log", FieldValue.str "Attempt 1: connection refused\n")] }]))
      ∧ (∀ w ∈ (handleQueueFailure exFailFresh "connection refused" 1000 "" "").2,
          w.doctype ≠ "SMPP SMS Queue"
            ∧ ∀ f ∈ w.fields, f.1 ≠ "scheduled_for")
      ∧ (handleQueueFailure exFailLast "connection refused" 1000 "" ""
        = (false,
           [{ doctype := "SMPP SMS Queue"
              docname := "Q-0001"
              fields := [("status", FieldValue.str "Failed"),
                         ("last_attempt", FieldValue.num 1000),
                         ("processing_notes",
                          FieldValue.str
                            "1000: Max attempts reached. Last error: connection refused\n")] }]))
      ∧ (∀ w ∈ (handleQueueFailure exFailLast "connection refused" 1000 "" "").2,
          ∀ f ∈ w.fields, f.1 ≠ "attempts" ∧ f.1 ≠ "scheduled_for") := by
  decide

theorem applyWrite_updateStatus (e : QueueEntry) (stat : String) (n : Option String)
    (t : Nat) :
    (applyWriteToEntry e (updateQueueStatusWrites e.name stat n t e.processing_notes)).status
      = stat := by
  cases n <;> simp [applyWriteToEntry, updateQueueStatusWrites]

/-- C3: processing a queue entry whose message is already `Sent` or
`Delivered` performs no submission, returns success and marks the entry
`Completed`, leaving the message untouched; processing the same entry a
second time behaves identically, so duplicate processing causes no
duplicate submission and the entry ends `Completed`. -/
theorem claim_C3_idempotent_completion (msg : SmsMessage) (e : QueueEntry)
    (o1 o2 : SendOutcome) (t1 t2 : Nat)
    (h : msg.status = "Sent" ∨ msg.status = "Delivered") :
    (processQueueItem msg e o1 t1).submissions = 0
      ∧ (processQueueItem msg e o1 t1).returned = true
      ∧ (processQueueItem msg e o1 t1).message = msg
      ∧ (processQueueItem msg e o1 t1).entry.status = "Completed"
      ∧ (processQueueItem (processQueueItem msg e o1 t1).message
          (processQueueItem msg e o1 t1).entry o2 t2).submissions = 0
      ∧ (processQueueItem (processQueueItem msg e o1 t1).message
          (processQueueItem msg e o1 t1).entry o2 t2).message = msg
      ∧ (processQueueItem (processQueueItem msg e o1 t1).message
          (processQueueItem msg e o1 t1).entry o2 t2).entry.status = "Completed" := by
  have hb : (msg.status == "Sent" || msg.status == "Delivered") = true := by
    rcases h with h | h <;> simp [h]
  have h1 : processQueueItem msg e o1 t1
      = { message := msg
          entry := applyWriteToEntry e
            (updateQueueStatusWrites e.name "Completed" (some "Message already sent") t1
              e.processing_notes)
          submissions := 0
          returned := true } := by
    unfold processQueueItem
    simp only [hb, if_true]
  set e1 := applyWriteToEntry e
    (updateQueueStatusWrites e.name "Completed" (some "Message already sent") t1
      e.processing_notes) with he1
  have h2 : processQueueItem msg e1 o2 t2
      = { message := msg
          entry := applyWriteToEntry e1
            (updateQueueStatusWrites e1.name "Completed" (some "Message already sent") t2
              e1.processing_notes)
          submissions := 0
          returned := true } := by
    unfold processQueueItem
    simp only [hb, if_true]
  rw [h1]
  refine ⟨rfl, rfl, rfl, applyWrite_updateStatus e _ _ _, ?_, ?_, ?_⟩
  · simp only [h2]
  · simp only [h2]
  · simp only [h2]
    exact applyWrite_updateStatus e1 _ _ _

/-- C3 witness: a delivered message's queue entry processed twice. -/
theorem claim_C3_witness :
    (processQueueItem { exSentMessage with status := "Delivered" } (exEntry "QW" 0 1)
        (SendOutcome.ok "m1") 7).submissions = 0
      ∧ (processQueueItem
          (processQueueItem { exSentMessage with status := "Delivered" } (exEntry "QW" 0 1)
            (SendOutcome.ok "m1") 7).message
          (processQueueItem { exSentMessage with status := "Delivered" } (exEntry "QW" 0 1)
            (SendOutcome.ok "m1") 7).entry (SendOutcome.ok "m2") 9).entry.status
        = "Completed" :=
  ⟨(claim_C3_idempotent_completion { exSentMessage with status := "Delivered" }
      (exEntry "QW" 0 1) (SendOutcome.ok "m1") (SendOutcome.ok "m2") 7 9 (Or.inr rfl)).1,
   (claim_C3_idempotent_completion { exSentMessage with status := "Delivered" }
      (exEntry "QW" 0 1) (SendOutcome.ok "m1") (SendOutcome.ok "m2") 7 9
      (Or.inr rfl)).2.2.2.2.2.2⟩

theorem mapReceiptStatus_rank (stat : Option String) :
    statusRank (mapReceiptStatus stat) = 3 := by
  cases stat with
  | none => rfl
  | some s =>
    simp only [mapReceiptStatus]
    split_ifs <;> rfl

/-- C7 counterexample: a delivery receipt with state `EXPIRED` applied to
a message already `Delivered` overwrites the status with `Expired` — a
mutation that is neither a no-op, nor a forward move along the chain, nor
the allowed `Sent → Failed` exception, so status mutation is not monotone
as claimed. -/
theorem claim_C7_counterexample :
    ¬ (applyStatusOp (StatusOp.receiptApply (some "EXPIRED")) "Delivered" = "Delivered"
        ∨ statusRank "Delivered"
            < statusRank (applyStatusOp (StatusOp.receiptApply (some "EXPIRED")) "Delivered")
        ∨ ("Delivered" = "Sent"
            ∧ applyStatusOp (StatusOp.receiptApply (some "EXPIRED")) "Delivered" = "Failed")) := by
  decide

/-- C7 (amended): from any non-terminal status — `Draft`, `Queued` or
`Sent` — every status-writing operation either leaves the status unchanged
or moves it strictly forward along the chain; from a terminal status,
receipt application and `query_sm` reconciliation overwrite the status
unconditionally with the mapped state and may move it backward or across
terminal states. -/
theorem claim_C7_amended_forward (op : StatusOp) (s : String) (hs : validStatus s)
    (h3 : statusRank s < 3) :
    applyStatusOp op s = s ∨ statusRank s < statusRank (applyStatusOp op s) := by
  have hs3 : s = "Draft" ∨ s = "Queued" ∨ s = "Sent" := by
    rcases hs with h | h | h | h | h | h | h
    · exact Or.inl h
    · exact Or.inr (Or.inl h)
    · exact Or.inr (Or.inr h)
    · exact absurd h3 (by subst h; decide)
    · exact absurd h3 (by subst h; decide)
    · exact absurd h3 (by subst h; decide)
    · exact absurd h3 (by subst h; decide)
  cases op with
  | sendSuccess =>
    rcases hs3 with h | h | h <;> subst h
    · right; decide
    · right; decide
    · left; rfl
  | sendError =>
    rcases hs3 with h | h | h <;> subst h <;> right <;> decide
  | receiptApply stat =>
    right
    have : applyStatusOp (StatusOp.receiptApply stat) s = mapReceiptStatus stat := rfl
    rw [this, mapReceiptStatus_rank]
    rcases hs3 with h | h | h <;> subst h <;> decide
  | queryApply t =>
    rcases hs3 with h | h | h <;> subst h <;>
      (simp only [applyStatusOp]
       unfold mapQueryStatus
       split_ifs <;> first
        | (left; rfl)
        | (right; decide))

/-- C7 witness: querying a queued message whose SMSC reports `ENROUTE`
moves it forward. -/
theorem claim_C7_witness :
    applyStatusOp (StatusOp.queryApply "ENROUTE") "Queued" = "Queued"
      ∨ statusRank "Queued" < statusRank (applyStatusOp (StatusOp.queryApply "ENROUTE") "Queued") :=
  claim_C7_amended_forward (StatusOp.queryApply "ENROUTE") "Queued"
    (Or.inr (Or.inl rfl)) (by decide)

theorem find?_append_of_none {α : Type} (p : α → Bool) (l1 l2 : List α)
    (h : l1.find? p = none) : (l1 ++ l2).find? p = l2.find? p := by
  induction l1 with
  | nil => simp
  | cons a as ih =>
    cases hpa : p a with
    | true => rw [List.find?_cons_of_pos _ hpa] at h; cases h
    | false =>
      have hpa' : ¬ p a = true := by simp [hpa]
      rw [List.find?_cons_of_neg _ hpa'] at h
      rw [List.cons_append, List.find?_cons_of_neg _ hpa']
      exact ih h

/-- C8 counterexample: resolving the default configuration implicitly and
requesting the same configuration explicitly by name yields two distinct
pooled client instances both bound to configuration `CFG-A`, so the pool
does not return the same instance per configuration identity. -/
theorem claim_C8_counterexample :
    poolRun1.1 = 0 ∧ poolRun2.1 = 1 ∧ poolRun1.1 ≠ poolRun2.1
      ∧ clientConfig poolRun2.2 poolRun1.1 = some "CFG-A"
      ∧ clientConfig poolRun2.2 poolRun2.1 = some "CFG-A" := by
  decide

/-- C8 (amended): the pool is keyed by the argument of `get_smpp_client` —
the explicitly passed name, or the literal key `default` when the name is
omitted — and two calls with the same argument return the same client
instance and leave the pool unchanged; an explicit default-configuration
name and an implicit call may create two distinct clients for the same
configuration. -/
theorem claim_C8_amended_same_key (d : String) (arg : Option String) (st : PoolState) :
    (get_smpp_client d arg (get_smpp_client d arg st).2).1 = (get_smpp_client d arg st).1
      ∧ (get_smpp_client d arg (get_smpp_client d arg st).2).2
        = (get_smpp_client d arg st).2 := by
  unfold get_smpp_client
  cases hfind : st.pool.find? (fun p => p.1 == arg.getD "default") with
  | some p => simp [hfind]
  | none =>
    have h2 : (st.pool ++ [(arg.getD "default", st.nextId)]).find?
        (fun p => p.1 == arg.getD "default") = some (arg.getD "default", st.nextId) := by
      rw [find?_append_of_none _ _ _ hfind]
      simp [List.find?]
    simp [hfind, h2]

/-- C8 witness: two explicit requests for the same configuration name
return the same pooled client. -/
theorem claim_C8_witness :
    (get_smpp_client "CFG-A" (some "CFG-B")
        (get_smpp_client "CFG-A" (some "CFG-B") poolRun1.2).2).1
      = (get_smpp_client "CFG-A" (some "CFG-B") poolRun1.2).1 :=
  (claim_C8_amended_same_key "CFG-A" (some "CFG-B") poolRun1.2).1

/-- C9: `normalize_priority` maps `None` to 0 and clamps every integer to
`max(0, min(3, n))`; named tiers resolve case-insensitively through
title-casing (`Low`/`Normal` to 0, `Medium` to 1, `High` to 2,
`Urgent`/`Very High` to 3); numeric strings outside the mapped `"0"`–`"3"`
parse as integers and are clamped the same way; and any unrecognized,
unparsable input yields 0. -/
theorem claim_C9_normalize_priority (n : Int) (s1 s2 : String)
    (h1 : priorityMapGet (pyTitle (pyStrip s1)) = none) (h2 : pyInt s1 = some n)
    (h3 : priorityMapGet (pyTitle (pyStrip s2)) = none) (h4 : pyInt s2 = none) :
    normalize_priority PyVal.pynone = 0
      ∧ (∀ m : Int, normalize_priority (PyVal.pyint m) = max 0 (min 3 m))
      ∧ normalize_priority (PyVal.pystr "Low") = 0
      ∧ normalize_priority (PyVal.pystr "low") = 0
      ∧ normalize_priority (PyVal.pystr "NORMAL") = 0
      ∧ normalize_priority (PyVal.pystr "Medium") = 1
      ∧ normalize_priority (PyVal.pystr "high") = 2
      ∧ normalize_priority (PyVal.pystr "Urgent") = 3
      ∧ normalize_priority (PyVal.pystr "very high") = 3
      ∧ normalize_priority (PyVal.pystr "0") = 0
      ∧ normalize_priority (PyVal.pystr "3") = 3
      ∧ normalize_priority (PyVal.pystr "7") = 3
      ∧ normalize_priority (PyVal.pystr "-4") = 0
      ∧ normalize_priority (PyVal.pystr s1) = max 0 (min 3 n)
      ∧ normalize_priority (PyVal.pystr s2) = 0 := by
  refine ⟨rfl, fun m => rfl, by decide, by decide, by decide, by decide, by decide, by decide,
    by decide, by decide, by decide, by decide, by decide, ?_, ?_⟩
  · simp only [normalize_priority, h1, h2]
  · simp only [normalize_priority, h3, h4]

/-- C9 witness: the clamping and fallback branches evaluated at `17` and
at an unrecognized string. -/
theorem claim_C9_witness :
    normalize_priority (PyVal.pystr "17") = max 0 (min 3 17)
      ∧ normalize_priority (PyVal.pystr "junk") = 0 :=
  ⟨(claim_C9_normalize_priority 17 "17" "junk" (by decide) (by decide) (by decide)
      (by decide)).2.2.2.2.2.2.2.2.2.2.2.2.2.1,
   (claim_C9_normalize_priority 17 "17" "junk" (by decide) (by decide) (by decide)
      (by decide)).2.2.2.2.2.2.2.2.2.2.2.2.2.2⟩

theorem recipientStep_len_pos (o : SendAttemptOutcome) (r : String) :
    1 ≤ (recipientStep o r).1.length + (recipientStep o r).2.length := by
  unfold recipientStep
  cases clean_phone_number r with
  | none => simp
  | some p =>
    cases o with
    | insertRaises => simp
    | sendResult ok reload => cases ok <;> cases reload <;> simp

theorem recipientStep_len_one (o : SendAttemptOutcome) (r : String)
    (hok : ∀ b, o ≠ SendAttemptOutcome.sendResult b true) :
    (recipientStep o r).1.length + (recipientStep o r).2.length = 1 := by
  unfold recipientStep
  cases clean_phone_number r with
  | none => simp
  | some p =>
    cases o with
    | insertRaises => simp
    | sendResult ok reload =>
      cases reload with
      | true => exact absurd rfl (hok ok)
      | false => cases ok <;> simp

theorem recipientStep_fst_ne_nil (o : SendAttemptOutcome) (r : String) :
    (recipientStep o r).1 ≠ []
      ↔ clean_phone_number r ≠ none
        ∧ ∃ rl, o = SendAttemptOutcome.sendResult true rl := by
  unfold recipientStep
  cases clean_phone_number r with
  | none => simp
  | some p =>
    cases o with
    | insertRaises => simp
    | sendResult ok reload => cases ok <;> cases reload <;> simp

theorem notify_counts_ge (env : Nat → SendAttemptOutcome) (l : List (Nat × String)) :
    l.length ≤
      ((l.map (fun ir => (recipientStep (env ir.1) ir.2).1)).flatten).length
        + ((l.map (fun ir => (recipientStep (env ir.1) ir.2).2)).flatten).length := by
  induction l with
  | nil => simp
  | cons a as ih =>
    simp only [List.map_cons, List.flatten_cons, List.length_append, List.length_cons]
    have h := recipientStep_len_pos (env a.1) a.2
    omega

theorem notify_counts_eq (env : Nat → SendAttemptOutcome) (l : List (Nat × String))
    (hok : ∀ i b, env i ≠ SendAttemptOutcome.sendResult b true) :
    ((l.map (fun ir => (recipientStep (env ir.1) ir.2).1)).flatten).length
        + ((l.map (fun ir => (recipientStep (env ir.1) ir.2).2)).flatten).length
      = l.length := by
  induction l with
  | nil => simp
  | cons a as ih =>
    simp only [List.map_cons, List.flatten_cons, List.length_append, List.length_cons]
    have h := recipientStep_len_one (env a.1) a.2 (fun b => hok a.1 b)
    omega

theorem notify_success_exists (env : Nat → SendAttemptOutcome) (l : List (Nat × String)) :
    (l.map (fun ir => (recipientStep (env ir.1) ir.2).1)).flatten ≠ []
      ↔ ∃ ir ∈ l, (recipientStep (env ir.1) ir.2).1 ≠ [] := by
  induction l with
  | nil => simp
  | cons a as ih =>
    simp only [List.map_cons, List.flatten_cons, List.mem_cons]
    rw [show ∀ x y : List String, x ++ y ≠ [] ↔ x ≠ [] ∨ y ≠ [] from
      fun x y => by rw [Ne, List.append_eq_nil]; exact not_and_or]
    rw [ih]
    constructor
    · rintro (h | ⟨ir, hmem, hir⟩)
      · exact ⟨a, Or.inl rfl, h⟩
      · exact ⟨ir, Or.inr hmem, hir⟩
    · rintro ⟨ir, hmem | hmem, hir⟩
      · exact Or.inl (hmem ▸ hir)
      · exact Or.inr ⟨ir, hmem, hir⟩

/-- C10 counterexample: with a single valid recipient whose send succeeds
but whose document reload then raises, the recipient loop counts the
recipient in both `sent_count` and `failed_count`, so not every recipient
is counted in exactly one of the two. -/
theorem claim_C10_counterexample :
    sentCount envReloadRaises ["1234567"] = 1
      ∧ failedCount envReloadRaises ["1234567"] = 1
      ∧ successFlag envReloadRaises ["1234567"] = true
      ∧ ¬ (sentCount envReloadRaises ["1234567"] + failedCount envReloadRaises ["1234567"]
            = (["1234567"] : List String).length) := by
  decide

/-- C10 (amended): `send_notification_sms` attempts every recipient of a
non-empty list — each recipient is counted at least once across
`sent_count` and `failed_count` even when earlier recipients fail; when no
post-send `reload()` raises, every recipient is counted exactly once; and
the returned success flag is true if and only if some recipient had a
valid phone number and a successful send. -/
theorem claim_C10_amended_counting (env : Nat → SendAttemptOutcome) (rs : List String)
    (_hne : rs ≠ []) :
    rs.length ≤ sentCount env rs + failedCount env rs
      ∧ ((∀ i b, env i ≠ SendAttemptOutcome.sendResult b true) →
          sentCount env rs + failedCount env rs = rs.length)
      ∧ (successFlag env rs = true
          ↔ ∃ ir ∈ rs.enum, clean_phone_number ir.2 ≠ none
              ∧ ∃ rl, env ir.1 = SendAttemptOutcome.sendResult true rl) := by
  refine ⟨?_, ?_, ?_⟩
  · have h := notify_counts_ge env rs.enum
    rw [List.enum_length] at h
    simpa [sentCount, failedCount, send_notification_sms] using h
  · intro hok
    have h := notify_counts_eq env rs.enum hok
    rw [List.enum_length] at h
    simpa [sentCount, failedCount, send_notification_sms] using h
  · have hflat : sentCount env rs
        = ((rs.enum.map (fun ir => (recipientStep (env ir.1) ir.2).1)).flatten).length := rfl
    rw [successFlag, decide_eq_true_iff, hflat, List.length_pos, notify_success_exists]
    exact exists_congr fun ir =>
      and_congr_right fun _ => recipientStep_fst_ne_nil (env ir.1) ir.2

/-- C10 witness: two recipients, one invalid number and one successful
send with no raising reload: both are counted, exactly once each, and the
success flag is set. -/
theorem claim_C10_witness :
    (["1234567", "abc"] : List String).length
        ≤ sentCount envAllOk ["1234567", "abc"] + failedCount envAllOk ["1234567", "abc"]
      ∧ sentCount envAllOk ["1234567", "abc"] + failedCount envAllOk ["1234567", "abc"] = 2 :=
  ⟨(claim_C10_amended_counting envAllOk ["1234567", "abc"] (by decide)).1,
   ((claim_C10_amended_counting envAllOk ["1234567", "abc"] (by decide)).2.1
      (fun i b h => by simp [envAllOk] at h)).trans rfl⟩

end SmppGateway
